import Mathlib

/-!
Shallow embedding of `src/pinata-upload.py` (repository dellmonitor/cactus-client).

The script is linear: read two environment variables, read the `version`
field of `package.json`, open four build artifacts, build one multipart
POST request, send it, print a status line, print the JSON-parsed response
body.  We model it as a function from an abstract world — the process
environment, the parsed manifest, the filesystem, the network, and the
response-body JSON parser — to a trace of observable events paired with an
optional raised Python error.
-/

namespace Cactus

/-- One part of the multipart body: the tuple
`(f"VERSION/name", open(path), mime)` from lines 10-13 of the script.
`content` is the text the opened file handle delivers. -/
structure FilePart where
  name : String
  content : String
  mime : String
deriving Repr, DecidableEq

/-- The HTTP request assembled by `requests.post` (lines 17-24):
url, the two credential headers, and the multipart `files` list whose
first component is the multipart field name (`"file"` throughout). -/
structure Request where
  url : String
  headers : List (String × String)
  files : List (String × FilePart)
deriving Repr, DecidableEq

/-- The HTTP response: status code and raw body text. -/
structure Response where
  status : Nat
  body : String
deriving Repr, DecidableEq

/-- Errors the script can raise, mirroring Python exceptions:
`keyError` from `os.environ[...]` or `dict[...]`, `fileError` from a
failed `open(...)`/`json.load`, `jsonError` from `r.json()` on a body
that is not valid JSON. -/
inductive PyError where
  | keyError (key : String)
  | fileError (path : String)
  | jsonError
deriving Repr, DecidableEq

/-- Observable events of a run: a successful `open`, a manifest key
lookup, a console print, an issued HTTP POST. -/
inductive Event where
  | openFile (path : String)
  | readKey (key : String)
  | print (s : String)
  | httpPost (req : Request)
deriving Repr, DecidableEq

/-- Line 16 of the script: `f"Uploading {VERSION}: {len(files)} files..."`. -/
def uploadLine (v : String) (n : Nat) : String :=
  s!"Uploading {v}: {n} files..."

/-- Lines 26-29: `"Success!"` on status 200, `f"Error: {status}"` otherwise. -/
def mkStatusLine (st : Nat) : String :=
  if st == 200 then "Success!" else s!"Error: {st}"

/-- Lines 9-14 of the script: the `files` list.  Each entry pairs the
multipart field name `"file"` with the tuple of destination name
(version-prefixed), opened file content, and content type.  Note the
fourth entry: destination `style.css.map`, but the content comes from
`dist/style.js.map` (the caller passes that file's content as `c4`). -/
def buildFiles (v c1 c2 c3 c4 : String) : List (String × FilePart) :=
  [ ("file", { name := v ++ "/cactus.js",     content := c1, mime := "text/javascript" }),
    ("file", { name := v ++ "/cactus.js.map", content := c2, mime := "application/json" }),
    ("file", { name := v ++ "/style.css",     content := c3, mime := "text/css" }),
    ("file", { name := v ++ "/style.css.map", content := c4, mime := "application/json" }) ]

/-- Lines 17-24: the POST request to the pinning endpoint with the two
credential headers and the multipart `files` payload. -/
def buildRequest (apiKey secretKey : String) (fs : List (String × FilePart)) : Request :=
  { url := "https://api.pinata.cloud/pinning/pinFileToIPFS",
    headers := [("pinata_api_key", apiKey), ("pinata_secret_api_key", secretKey)],
    files := fs }

/-- Lines 26-31: print the status line, then `print(r.json())`.
`parseJson` models `r.json()`: `some j` when the body is valid JSON with
printed representation `j`, `none` when parsing raises. -/
def handleResponse (parseJson : String → Option String) (resp : Response) :
    List Event × Option PyError :=
  match parseJson resp.body with
  | none => ([Event.print (mkStatusLine resp.status)], some PyError.jsonError)
  | some j => ([Event.print (mkStatusLine resp.status), Event.print j], none)

/-- The whole script, lines 5-31.
`env` is `os.environ`; `packageJson` is the result of
`json.load(open("package.json"))` — `none` when the file is missing or
not a valid JSON object, `some kvs` for a parsed object (values as
strings); `fileSys` maps a path to the content `open` delivers, `none`
meaning `open` raises; `respond` is the network; `parseJson` is
`Response.json()` as in `handleResponse`.  The result is the event trace
and the raised error, if any. -/
def run (env : String → Option String) (packageJson : Option (List (String × String)))
    (fileSys : String → Option String) (respond : Request → Response)
    (parseJson : String → Option String) : List Event × Option PyError :=
  match env "PINATA_API_KEY" with
  | none => ([], some (PyError.keyError "PINATA_API_KEY"))
  | some apiKey =>
  match env "PINATA_SECRET_API_KEY" with
  | none => ([], some (PyError.keyError "PINATA_SECRET_API_KEY"))
  | some secretKey =>
  match packageJson with
  | none => ([], some (PyError.fileError "package.json"))
  | some manifest =>
  match manifest.lookup "version" with
  | none => ([Event.openFile "package.json"], some (PyError.keyError "version"))
  | some v =>
  match fileSys "dist/cactus.js" with
  | none => ([Event.openFile "package.json", Event.readKey "version"],
             some (PyError.fileError "dist/cactus.js"))
  | some c1 =>
  match fileSys "dist/cactus.js.map" with
  | none => ([Event.openFile "package.json", Event.readKey "version",
              Event.openFile "dist/cactus.js"],
             some (PyError.fileError "dist/cactus.js.map"))
  | some c2 =>
  match fileSys "dist/style.css" with
  | none => ([Event.openFile "package.json", Event.readKey "version",
              Event.openFile "dist/cactus.js", Event.openFile "dist/cactus.js.map"],
             some (PyError.fileError "dist/style.css"))
  | some c3 =>
  match fileSys "dist/style.js.map" with
  | none => ([Event.openFile "package.json", Event.readKey "version",
              Event.openFile "dist/cactus.js", Event.openFile "dist/cactus.js.map",
              Event.openFile "dist/style.css"],
             some (PyError.fileError "dist/style.js.map"))
  | some c4 =>
  let fls := buildFiles v c1 c2 c3 c4
  let req := buildRequest apiKey secretKey fls
  let resp := respond req
  let tl := handleResponse parseJson resp
  (Event.openFile "package.json" :: Event.readKey "version" ::
   Event.openFile "dist/cactus.js" :: Event.openFile "dist/cactus.js.map" ::
   Event.openFile "dist/style.css" :: Event.openFile "dist/style.js.map" ::
   Event.print (uploadLine v fls.length) :: Event.httpPost req :: tl.1,
   tl.2)

/-- The first POST request in a trace, if any. -/
def firstPost : List Event → Option Request
  | [] => none
  | Event.httpPost q :: _ => some q
  | _ :: es => firstPost es

/-- All POST requests issued in a trace, in order. -/
def postReqs : List Event → List Request
  | [] => []
  | Event.httpPost q :: es => q :: postReqs es
  | _ :: es => postReqs es

/-- All successfully opened paths in a trace, in order. -/
def openedPaths : List Event → List String
  | [] => []
  | Event.openFile p :: es => p :: openedPaths es
  | _ :: es => openedPaths es

/-- All manifest key reads in a trace, in order. -/
def readKeys : List Event → List String
  | [] => []
  | Event.readKey k :: es => k :: readKeys es
  | _ :: es => readKeys es

/-- The (part name, content type) pairs of a request's multipart payload. -/
def partNamesTypes (q : Request) : List (String × String) :=
  q.files.map fun pr => (pr.2.name, pr.2.mime)

/-- A sample environment holding both credentials. -/
def demoEnv : String → Option String := fun k =>
  if k = "PINATA_API_KEY" then some "KEY"
  else if k = "PINATA_SECRET_API_KEY" then some "SECRET"
  else none

/-- A sample filesystem holding the four build artifacts. -/
def demoFs : String → Option String := fun p =>
  if p = "dist/cactus.js" then some "js-src"
  else if p = "dist/cactus.js.map" then some "js-map-src"
  else if p = "dist/style.css" then some "css-src"
  else if p = "dist/style.js.map" then some "css-map-src"
  else none

/-- A sample parsed manifest with `version = "1.2.3"`. -/
def demoManifest : List (String × String) := [("version", "1.2.3")]

/-- A network that always answers status 200 with body `{}`. -/
def demoRespond200 : Request → Response := fun _ => { status := 200, body := "{}" }

/-- A network that always answers status 500 with body `{}`. -/
def demoRespond500 : Request → Response := fun _ => { status := 500, body := "{}" }

/-- A JSON parser for which every body is valid and prints as itself. -/
def demoParse : String → Option String := fun s => some s

/-- A JSON parser for which no body is valid JSON (`r.json()` raises). -/
def demoParseFail : String → Option String := fun _ => none

/-- An environment holding no variables at all. -/
def demoEnvEmpty : String → Option String := fun _ => none

/-- A sample parsed manifest without a `version` key. -/
def demoManifestNoVersion : List (String × String) := [("name", "cactus")]

/-- `handleResponse` never issues a POST. -/
theorem postReqs_handleResponse (p : String → Option String) (r : Response) :
    postReqs (handleResponse p r).1 = [] := by
  unfold handleResponse
  cases p r.body <;> simp [postReqs]

/-- `handleResponse` never opens a file. -/
theorem openedPaths_handleResponse (p : String → Option String) (r : Response) :
    openedPaths (handleResponse p r).1 = [] := by
  unfold handleResponse
  cases p r.body <;> simp [openedPaths]

/-- `handleResponse` never reads a manifest key. -/
theorem readKeys_handleResponse (p : String → Option String) (r : Response) :
    readKeys (handleResponse p r).1 = [] := by
  unfold handleResponse
  cases p r.body <;> simp [readKeys]

/-- `firstPost` of a trace produced by `handleResponse` is `none`. -/
theorem firstPost_handleResponse (p : String → Option String) (r : Response) :
    firstPost (handleResponse p r).1 = none := by
  unfold handleResponse
  cases p r.body <;> simp [firstPost]

/-- When the environment, the manifest and all four artifacts are in
place, the run's trace and outcome have this exact shape: the six opens
and the version read, the pre-upload print, one POST of the built
request, then whatever lines 26-31 produce on the received response. -/
theorem run_reached (env : String → Option String)
    (packageJson : Option (List (String × String)))
    (fileSys : String → Option String) (respond : Request → Response)
    (parseJson : String → Option String)
    (apiKey secretKey : String) (manifest : List (String × String)) (v : String)
    (c1 c2 c3 c4 : String)
    (hA : env "PINATA_API_KEY" = some apiKey)
    (hS : env "PINATA_SECRET_API_KEY" = some secretKey)
    (hP : packageJson = some manifest)
    (hV : manifest.lookup "version" = some v)
    (h1 : fileSys "dist/cactus.js" = some c1)
    (h2 : fileSys "dist/cactus.js.map" = some c2)
    (h3 : fileSys "dist/style.css" = some c3)
    (h4 : fileSys "dist/style.js.map" = some c4) :
    run env packageJson fileSys respond parseJson =
      (Event.openFile "package.json" :: Event.readKey "version" ::
       Event.openFile "dist/cactus.js" :: Event.openFile "dist/cactus.js.map" ::
       Event.openFile "dist/style.css" :: Event.openFile "dist/style.js.map" ::
       Event.print (uploadLine v 4) ::
       Event.httpPost (buildRequest apiKey secretKey (buildFiles v c1 c2 c3 c4)) ::
       (handleResponse parseJson
         (respond (buildRequest apiKey secretKey (buildFiles v c1 c2 c3 c4)))).1,
       (handleResponse parseJson
         (respond (buildRequest apiKey secretKey (buildFiles v c1 c2 c3 c4)))).2) := by
  simp only [run, hA, hS, hP, hV, h1, h2, h3, h4, buildFiles, List.length_cons,
    List.length_nil]

/-- C1: with valid credentials, a manifest whose `version` is `"1.2.3"`,
and all four artifact files present, the multipart request built by the
script contains exactly four parts, named `1.2.3/cactus.js`,
`1.2.3/cactus.js.map`, `1.2.3/style.css`, `1.2.3/style.css.map`, each
tagged with the multipart field name `"file"`. -/
theorem upload_parts_for_version_123 (env : String → Option String)
    (packageJson : Option (List (String × String)))
    (fileSys : String → Option String) (respond : Request → Response)
    (parseJson : String → Option String)
    (apiKey secretKey : String) (manifest : List (String × String))
    (c1 c2 c3 c4 : String)
    (hA : env "PINATA_API_KEY" = some apiKey)
    (hS : env "PINATA_SECRET_API_KEY" = some secretKey)
    (hP : packageJson = some manifest)
    (hV : manifest.lookup "version" = some "1.2.3")
    (h1 : fileSys "dist/cactus.js" = some c1)
    (h2 : fileSys "dist/cactus.js.map" = some c2)
    (h3 : fileSys "dist/style.css" = some c3)
    (h4 : fileSys "dist/style.js.map" = some c4) :
    ∃ q, firstPost (run env packageJson fileSys respond parseJson).1 = some q ∧
      q.files.map (fun pr => (pr.1, pr.2.name)) =
        [("file", "1.2.3/cactus.js"), ("file", "1.2.3/cactus.js.map"),
         ("file", "1.2.3/style.css"), ("file", "1.2.3/style.css.map")] := by
  refine ⟨buildRequest apiKey secretKey (buildFiles "1.2.3" c1 c2 c3 c4), ?_, ?_⟩
  · rw [run_reached env packageJson fileSys respond parseJson apiKey secretKey
      manifest "1.2.3" c1 c2 c3 c4 hA hS hP hV h1 h2 h3 h4]
    simp [firstPost]
  · rfl

/-- C1 witness: the hypotheses hold and the conclusion follows at a
concrete world. -/
theorem upload_parts_for_version_123_witness :
    demoEnv "PINATA_API_KEY" = some "KEY" ∧
    demoEnv "PINATA_SECRET_API_KEY" = some "SECRET" ∧
    demoManifest.lookup "version" = some "1.2.3" ∧
    demoFs "dist/cactus.js" = some "js-src" ∧
    demoFs "dist/cactus.js.map" = some "js-map-src" ∧
    demoFs "dist/style.css" = some "css-src" ∧
    demoFs "dist/style.js.map" = some "css-map-src" ∧
    ∃ q, firstPost (run demoEnv (some demoManifest) demoFs demoRespond200 demoParse).1 =
        some q ∧
      q.files.map (fun pr => (pr.1, pr.2.name)) =
        [("file", "1.2.3/cactus.js"), ("file", "1.2.3/cactus.js.map"),
         ("file", "1.2.3/style.css"), ("file", "1.2.3/style.css.map")] :=
  ⟨rfl, rfl, rfl, rfl, rfl, rfl, rfl,
    upload_parts_for_version_123 demoEnv (some demoManifest) demoFs demoRespond200
      demoParse "KEY" "SECRET" demoManifest "js-src" "js-map-src" "css-src" "css-map-src"
      rfl rfl rfl rfl rfl rfl rfl rfl⟩

/-- C2: when `PINATA_API_KEY` is absent from the environment, the run
raises a `KeyError` immediately, with an empty trace — in particular no
HTTP request is issued. -/
theorem missing_api_key_no_request (env : String → Option String)
    (packageJson : Option (List (String × String)))
    (fileSys : String → Option String) (respond : Request → Response)
    (parseJson : String → Option String)
    (hA : env "PINATA_API_KEY" = none) :
    run env packageJson fileSys respond parseJson =
      ([], some (PyError.keyError "PINATA_API_KEY")) ∧
    postReqs (run env packageJson fileSys respond parseJson).1 = [] := by
  have h : run env packageJson fileSys respond parseJson =
      ([], some (PyError.keyError "PINATA_API_KEY")) := by
    simp only [run, hA]
  exact ⟨h, by rw [h]; rfl⟩

/-- C2 witness at a concrete world with an empty environment. -/
theorem missing_api_key_no_request_witness :
    demoEnvEmpty "PINATA_API_KEY" = none ∧
    (run demoEnvEmpty (some demoManifest) demoFs demoRespond200 demoParse =
      ([], some (PyError.keyError "PINATA_API_KEY")) ∧
     postReqs (run demoEnvEmpty (some demoManifest) demoFs demoRespond200 demoParse).1 = []) :=
  ⟨rfl, missing_api_key_no_request demoEnvEmpty (some demoManifest) demoFs demoRespond200
    demoParse rfl⟩

/-- C3: when the manifest object has no `version` key, the run raises a
`KeyError` right after reading the manifest: the only file opened is
`package.json` (no artifact file), and no request is built or issued. -/
theorem missing_version_fails_early (env : String → Option String)
    (packageJson : Option (List (String × String)))
    (fileSys : String → Option String) (respond : Request → Response)
    (parseJson : String → Option String)
    (apiKey secretKey : String) (manifest : List (String × String))
    (hA : env "PINATA_API_KEY" = some apiKey)
    (hS : env "PINATA_SECRET_API_KEY" = some secretKey)
    (hP : packageJson = some manifest)
    (hV : manifest.lookup "version" = none) :
    run env packageJson fileSys respond parseJson =
      ([Event.openFile "package.json"], some (PyError.keyError "version")) ∧
    openedPaths (run env packageJson fileSys respond parseJson).1 = ["package.json"] ∧
    postReqs (run env packageJson fileSys respond parseJson).1 = [] := by
  have h : run env packageJson fileSys respond parseJson =
      ([Event.openFile "package.json"], some (PyError.keyError "version")) := by
    simp only [run, hA, hS, hP, hV]
  refine ⟨h, by rw [h]; rfl, by rw [h]; rfl⟩

/-- C3 witness at a concrete world whose manifest lacks `version`. -/
theorem missing_version_fails_early_witness :
    demoManifestNoVersion.lookup "version" = none ∧
    (run demoEnv (some demoManifestNoVersion) demoFs demoRespond200 demoParse =
      ([Event.openFile "package.json"], some (PyError.keyError "version")) ∧
     openedPaths (run demoEnv (some demoManifestNoVersion) demoFs demoRespond200 demoParse).1 =
       ["package.json"] ∧
     postReqs (run demoEnv (some demoManifestNoVersion) demoFs demoRespond200 demoParse).1 = []) :=
  ⟨rfl, missing_version_fails_early demoEnv (some demoManifestNoVersion) demoFs
    demoRespond200 demoParse "KEY" "SECRET" demoManifestNoVersion rfl rfl rfl rfl⟩

/-- C4 counterexample: at a concrete world whose response has status 200
but a body `r.json()` cannot parse, the run raises (`jsonError`), so the
claim's "in both cases without raising an exception" is false as stated
over every received response. -/
theorem response_print_counterexample :
    (demoRespond200 (buildRequest "KEY" "SECRET"
      (buildFiles "1.2.3" "js-src" "js-map-src" "css-src" "css-map-src"))).status = 200 ∧
    (run demoEnv (some demoManifest) demoFs demoRespond200 demoParseFail).2 =
      some PyError.jsonError :=
  ⟨rfl, rfl⟩

/-- C4 (amended): for every response whose body `r.json()` does parse,
the script prints `"Success!"` when the status is 200 and
`f"Error: {status}"` otherwise, followed by the JSON-parsed response
body, and raises nothing. -/
theorem response_printing (parseJson : String → Option String) (st : Nat) (body j : String)
    (hj : parseJson body = some j) :
    handleResponse parseJson { status := st, body := body } =
      ([Event.print (mkStatusLine st), Event.print j], none) := by
  simp only [handleResponse, hj]

/-- C4 witness: concrete 500 response with a parsable body. -/
theorem response_printing_witness :
    demoParse "{}" = some "{}" ∧
    handleResponse demoParse { status := 500, body := "{}" } =
      ([Event.print (mkStatusLine 500), Event.print "{}"], none) ∧
    mkStatusLine 500 = "Error: 500" :=
  ⟨rfl, response_printing demoParse 500 "{}" "{}" rfl, by decide⟩

/-- C5: the status check only chooses the printed line; for two responses
with the same body, execution after the status line is identical and the
outcome (raised error or clean termination, hence process exit status) is
the same, whatever the status codes. -/
theorem status_same_continuation (parseJson : String → Option String) (r1 r2 : Response)
    (hb : r1.body = r2.body) :
    (handleResponse parseJson r1).2 = (handleResponse parseJson r2).2 ∧
    (handleResponse parseJson r1).1.drop 1 = (handleResponse parseJson r2).1.drop 1 := by
  unfold handleResponse
  rw [hb]
  cases parseJson r2.body <;> simp

/-- C5 witness: a 200 and a 500 response with equal bodies. -/
theorem status_same_continuation_witness :
    (({ status := 200, body := "{}" } : Response).body =
      ({ status := 500, body := "{}" } : Response).body) ∧
    ((handleResponse demoParse { status := 200, body := "{}" }).2 =
      (handleResponse demoParse { status := 500, body := "{}" }).2 ∧
     (handleResponse demoParse { status := 200, body := "{}" }).1.drop 1 =
      (handleResponse demoParse { status := 500, body := "{}" }).1.drop 1) :=
  ⟨rfl, status_same_continuation demoParse
    { status := 200, body := "{}" } { status := 500, body := "{}" } rfl⟩

/-- C6: every run that reaches the network call issues exactly one POST,
to `https://api.pinata.cloud/pinning/pinFileToIPFS`, with the API key in
header `pinata_api_key`, the secret in header `pinata_secret_api_key`,
and the four upload items as the multipart payload. -/
theorem single_post_request (env : String → Option String)
    (packageJson : Option (List (String × String)))
    (fileSys : String → Option String) (respond : Request → Response)
    (parseJson : String → Option String)
    (apiKey secretKey : String) (manifest : List (String × String)) (v : String)
    (c1 c2 c3 c4 : String)
    (hA : env "PINATA_API_KEY" = some apiKey)
    (hS : env "PINATA_SECRET_API_KEY" = some secretKey)
    (hP : packageJson = some manifest)
    (hV : manifest.lookup "version" = some v)
    (h1 : fileSys "dist/cactus.js" = some c1)
    (h2 : fileSys "dist/cactus.js.map" = some c2)
    (h3 : fileSys "dist/style.css" = some c3)
    (h4 : fileSys "dist/style.js.map" = some c4) :
    ∃ q, postReqs (run env packageJson fileSys respond parseJson).1 = [q] ∧
      q.url = "https://api.pinata.cloud/pinning/pinFileToIPFS" ∧
      q.headers = [("pinata_api_key", apiKey), ("pinata_secret_api_key", secretKey)] ∧
      q.files =
        [ ("file", { name := v ++ "/cactus.js", content := c1, mime := "text/javascript" }),
          ("file", { name := v ++ "/cactus.js.map", content := c2, mime := "application/json" }),
          ("file", { name := v ++ "/style.css", content := c3, mime := "text/css" }),
          ("file", { name := v ++ "/style.css.map", content := c4, mime := "application/json" }) ] := by
  refine ⟨buildRequest apiKey secretKey (buildFiles v c1 c2 c3 c4), ?_, rfl, rfl, rfl⟩
  rw [run_reached env packageJson fileSys respond parseJson apiKey secretKey
    manifest v c1 c2 c3 c4 hA hS hP hV h1 h2 h3 h4]
  simp [postReqs, postReqs_handleResponse]

/-- C6 witness at the concrete demo world. -/
theorem single_post_request_witness :
    demoEnv "PINATA_API_KEY" = some "KEY" ∧
    demoManifest.lookup "version" = some "1.2.3" ∧
    ∃ q, postReqs (run demoEnv (some demoManifest) demoFs demoRespond500 demoParse).1 = [q] ∧
      q.url = "https://api.pinata.cloud/pinning/pinFileToIPFS" ∧
      q.headers = [("pinata_api_key", "KEY"), ("pinata_secret_api_key", "SECRET")] ∧
      q.files =
        [ ("file", { name := "1.2.3" ++ "/cactus.js", content := "js-src", mime := "text/javascript" }),
          ("file", { name := "1.2.3" ++ "/cactus.js.map", content := "js-map-src", mime := "application/json" }),
          ("file", { name := "1.2.3" ++ "/style.css", content := "css-src", mime := "text/css" }),
          ("file", { name := "1.2.3" ++ "/style.css.map", content := "css-map-src", mime := "application/json" }) ] :=
  ⟨rfl, rfl, single_post_request demoEnv (some demoManifest) demoFs demoRespond500
    demoParse "KEY" "SECRET" demoManifest "1.2.3" "js-src" "js-map-src" "css-src"
    "css-map-src" rfl rfl rfl rfl rfl rfl rfl rfl⟩

/-- C7: request construction is deterministic — with the same
environment, manifest and filesystem, two runs build a request with the
same part names and content types, whatever the network and the JSON
parser do. -/
theorem request_deterministic (env : String → Option String)
    (packageJson : Option (List (String × String)))
    (fileSys : String → Option String)
    (r1 r2 : Request → Response) (p1 p2 : String → Option String) :
    Option.map partNamesTypes (firstPost (run env packageJson fileSys r1 p1).1) =
    Option.map partNamesTypes (firstPost (run env packageJson fileSys r2 p2).1) := by
  rcases hA : env "PINATA_API_KEY" with _ | apiKey
  · simp [run, hA, firstPost]
  rcases hS : env "PINATA_SECRET_API_KEY" with _ | secretKey
  · simp [run, hA, hS, firstPost]
  rcases packageJson with _ | manifest
  · simp [run, hA, hS, firstPost]
  rcases hV : manifest.lookup "version" with _ | v
  · simp [run, hA, hS, hV, firstPost]
  rcases h1 : fileSys "dist/cactus.js" with _ | c1
  · simp [run, hA, hS, hV, h1, firstPost]
  rcases h2 : fileSys "dist/cactus.js.map" with _ | c2
  · simp [run, hA, hS, hV, h1, h2, firstPost]
  rcases h3 : fileSys "dist/style.css" with _ | c3
  · simp [run, hA, hS, hV, h1, h2, h3, firstPost]
  rcases h4 : fileSys "dist/style.js.map" with _ | c4
  · simp [run, hA, hS, hV, h1, h2, h3, h4, firstPost]
  rw [run_reached env (some manifest) fileSys r1 p1 apiKey secretKey manifest v
        c1 c2 c3 c4 hA hS rfl hV h1 h2 h3 h4,
      run_reached env (some manifest) fileSys r2 p2 apiKey secretKey manifest v
        c1 c2 c3 c4 hA hS rfl hV h1 h2 h3 h4]
  simp [firstPost]

/-- C8: within one run that reaches the request, the manifest's version
is read exactly once, and the request payload is fixed at exactly the
four named build artifacts, all four destination names prefixed by the
one version string. -/
theorem version_read_once_fixed_items (env : String → Option String)
    (packageJson : Option (List (String × String)))
    (fileSys : String → Option String) (respond : Request → Response)
    (parseJson : String → Option String)
    (apiKey secretKey : String) (manifest : List (String × String)) (v : String)
    (c1 c2 c3 c4 : String)
    (hA : env "PINATA_API_KEY" = some apiKey)
    (hS : env "PINATA_SECRET_API_KEY" = some secretKey)
    (hP : packageJson = some manifest)
    (hV : manifest.lookup "version" = some v)
    (h1 : fileSys "dist/cactus.js" = some c1)
    (h2 : fileSys "dist/cactus.js.map" = some c2)
    (h3 : fileSys "dist/style.css" = some c3)
    (h4 : fileSys "dist/style.js.map" = some c4) :
    readKeys (run env packageJson fileSys respond parseJson).1 = ["version"] ∧
    ∃ q, postReqs (run env packageJson fileSys respond parseJson).1 = [q] ∧
      q.files.map (fun pr => pr.2.name) =
        [v ++ "/cactus.js", v ++ "/cactus.js.map", v ++ "/style.css", v ++ "/style.css.map"] ∧
      q.files.length = 4 := by
  rw [run_reached env packageJson fileSys respond parseJson apiKey secretKey
    manifest v c1 c2 c3 c4 hA hS hP hV h1 h2 h3 h4]
  refine ⟨by simp [readKeys, readKeys_handleResponse], ?_⟩
  exact ⟨buildRequest apiKey secretKey (buildFiles v c1 c2 c3 c4),
    by simp [postReqs, postReqs_handleResponse], rfl, rfl⟩

/-- C8 witness at the concrete demo world. -/
theorem version_read_once_fixed_items_witness :
    demoManifest.lookup "version" = some "1.2.3" ∧
    readKeys (run demoEnv (some demoManifest) demoFs demoRespond200 demoParse).1 =
      ["version"] ∧
    ∃ q, postReqs (run demoEnv (some demoManifest) demoFs demoRespond200 demoParse).1 = [q] ∧
      q.files.map (fun pr => pr.2.name) =
        ["1.2.3" ++ "/cactus.js", "1.2.3" ++ "/cactus.js.map",
         "1.2.3" ++ "/style.css", "1.2.3" ++ "/style.css.map"] ∧
      q.files.length = 4 := by
  refine ⟨rfl, ?_⟩
  exact version_read_once_fixed_items demoEnv (some demoManifest) demoFs demoRespond200
    demoParse "KEY" "SECRET" demoManifest "1.2.3" "js-src" "js-map-src" "css-src"
    "css-map-src" rfl rfl rfl rfl rfl rfl rfl rfl

/-- C9: the opened artifacts are, in order, `dist/cactus.js`,
`dist/cactus.js.map`, `dist/style.css`, `dist/style.js.map`, while the
part names carry the filenames `cactus.js`, `cactus.js.map`,
`style.css`, `style.css.map`: the fourth part (named
`{version}/style.css.map`, carrying content `c4` read from
`dist/style.js.map`) is the only one whose uploaded filename differs
from its source filename. -/
theorem style_map_source_mismatch (env : String → Option String)
    (packageJson : Option (List (String × String)))
    (fileSys : String → Option String) (respond : Request → Response)
    (parseJson : String → Option String)
    (apiKey secretKey : String) (manifest : List (String × String)) (v : String)
    (c1 c2 c3 c4 : String)
    (hA : env "PINATA_API_KEY" = some apiKey)
    (hS : env "PINATA_SECRET_API_KEY" = some secretKey)
    (hP : packageJson = some manifest)
    (hV : manifest.lookup "version" = some v)
    (h1 : fileSys "dist/cactus.js" = some c1)
    (h2 : fileSys "dist/cactus.js.map" = some c2)
    (h3 : fileSys "dist/style.css" = some c3)
    (h4 : fileSys "dist/style.js.map" = some c4) :
    openedPaths (run env packageJson fileSys respond parseJson).1 =
      ["package.json", "dist/cactus.js", "dist/cactus.js.map",
       "dist/style.css", "dist/style.js.map"] ∧
    (∃ q, postReqs (run env packageJson fileSys respond parseJson).1 = [q] ∧
      q.files.map (fun pr => pr.2.name) =
        [v ++ "/cactus.js", v ++ "/cactus.js.map", v ++ "/style.css", v ++ "/style.css.map"] ∧
      q.files.map (fun pr => pr.2.content) = [c1, c2, c3, c4]) ∧
    (List.zip ["cactus.js", "cactus.js.map", "style.css", "style.css.map"]
        ["cactus.js", "cactus.js.map", "style.css", "style.js.map"]).filter
      (fun pr => pr.1 != pr.2) = [("style.css.map", "style.js.map")] := by
  rw [run_reached env packageJson fileSys respond parseJson apiKey secretKey
    manifest v c1 c2 c3 c4 hA hS hP hV h1 h2 h3 h4]
  refine ⟨by simp [openedPaths, openedPaths_handleResponse], ?_, by decide⟩
  exact ⟨buildRequest apiKey secretKey (buildFiles v c1 c2 c3 c4),
    by simp [postReqs, postReqs_handleResponse], rfl, rfl⟩

/-- C9 witness at the concrete demo world. -/
theorem style_map_source_mismatch_witness :
    demoFs "dist/style.js.map" = some "css-map-src" ∧
    openedPaths (run demoEnv (some demoManifest) demoFs demoRespond200 demoParse).1 =
      ["package.json", "dist/cactus.js", "dist/cactus.js.map",
       "dist/style.css", "dist/style.js.map"] ∧
    (∃ q, postReqs (run demoEnv (some demoManifest) demoFs demoRespond200 demoParse).1 = [q] ∧
      q.files.map (fun pr => pr.2.name) =
        ["1.2.3" ++ "/cactus.js", "1.2.3" ++ "/cactus.js.map",
         "1.2.3" ++ "/style.css", "1.2.3" ++ "/style.css.map"] ∧
      q.files.map (fun pr => pr.2.content) =
        ["js-src", "js-map-src", "css-src", "css-map-src"]) ∧
    (List.zip ["cactus.js", "cactus.js.map", "style.css", "style.css.map"]
        ["cactus.js", "cactus.js.map", "style.css", "style.js.map"]).filter
      (fun pr => pr.1 != pr.2) = [("style.css.map", "style.js.map")] := by
  refine ⟨rfl, ?_⟩
  exact style_map_source_mismatch demoEnv (some demoManifest) demoFs demoRespond200
    demoParse "KEY" "SECRET" demoManifest "1.2.3" "js-src" "js-map-src" "css-src"
    "css-map-src" rfl rfl rfl rfl rfl rfl rfl rfl

/-- C10: when the response body does not parse as JSON, the run prints
the upload line and the status line, issues the one POST, and then
raises from `r.json()`: the trace is exactly the events below — ending
at the status-line print, with no print of the raw body afterwards. -/
theorem invalid_json_body_raises (env : String → Option String)
    (packageJson : Option (List (String × String)))
    (fileSys : String → Option String) (respond : Request → Response)
    (parseJson : String → Option String)
    (apiKey secretKey : String) (manifest : List (String × String)) (v : String)
    (c1 c2 c3 c4 : String)
    (hA : env "PINATA_API_KEY" = some apiKey)
    (hS : env "PINATA_SECRET_API_KEY" = some secretKey)
    (hP : packageJson = some manifest)
    (hV : manifest.lookup "version" = some v)
    (h1 : fileSys "dist/cactus.js" = some c1)
    (h2 : fileSys "dist/cactus.js.map" = some c2)
    (h3 : fileSys "dist/style.css" = some c3)
    (h4 : fileSys "dist/style.js.map" = some c4)
    (hJ : parseJson ((respond (buildRequest apiKey secretKey
      (buildFiles v c1 c2 c3 c4))).body) = none) :
    run env packageJson fileSys respond parseJson =
      ([Event.openFile "package.json", Event.readKey "version",
        Event.openFile "dist/cactus.js", Event.openFile "dist/cactus.js.map",
        Event.openFile "dist/style.css", Event.openFile "dist/style.js.map",
        Event.print (uploadLine v 4),
        Event.httpPost (buildRequest apiKey secretKey (buildFiles v c1 c2 c3 c4)),
        Event.print (mkStatusLine ((respond (buildRequest apiKey secretKey
          (buildFiles v c1 c2 c3 c4))).status))],
       some PyError.jsonError) := by
  rw [run_reached env packageJson fileSys respond parseJson apiKey secretKey
    manifest v c1 c2 c3 c4 hA hS hP hV h1 h2 h3 h4]
  simp only [handleResponse, hJ]

/-- C10 witness: the demo world with a parser that rejects every body. -/
theorem invalid_json_body_raises_witness :
    demoParseFail ((demoRespond200 (buildRequest "KEY" "SECRET"
      (buildFiles "1.2.3" "js-src" "js-map-src" "css-src" "css-map-src"))).body) = none ∧
    run demoEnv (some demoManifest) demoFs demoRespond200 demoParseFail =
      ([Event.openFile "package.json", Event.readKey "version",
        Event.openFile "dist/cactus.js", Event.openFile "dist/cactus.js.map",
        Event.openFile "dist/style.css", Event.openFile "dist/style.js.map",
        Event.print (uploadLine "1.2.3" 4),
        Event.httpPost (buildRequest "KEY" "SECRET"
          (buildFiles "1.2.3" "js-src" "js-map-src" "css-src" "css-map-src")),
        Event.print (mkStatusLine ((demoRespond200 (buildRequest "KEY" "SECRET"
          (buildFiles "1.2.3" "js-src" "js-map-src" "css-src" "css-map-src"))).status))],
       some PyError.jsonError) :=
  ⟨rfl, invalid_json_body_raises demoEnv (some demoManifest) demoFs demoRespond200
    demoParseFail "KEY" "SECRET" demoManifest "1.2.3" "js-src" "js-map-src" "css-src"
    "css-map-src" rfl rfl rfl rfl rfl rfl rfl rfl rfl⟩

end Cactus
